import Mathlib

/-!
Verification development for the task-management skill-execution subsystem.

The definitions below are a shallow embedding of the Python sources:
  app/services/skill_service.py        (dispatcher `execute_skill`)
  app/skills/task_prioritizer.py       (prioritizer)
  app/skills/daily_status_summary.py   (daily summary)
  app/skills/reused/runbook_generator.py
  app/skills/reused/incident_update.py
  app/skills/reused/fcr_autofill.py

Conventions of the embedding:
  - Python `raise ValueError(...)` is modelled as `Except.error` carrying a
    `SkillError`; each distinct raise site gets its own constructor, and
    `SkillError.message` reproduces the exact Python exception text.
  - The wall-clock reads (`get_current_timestamp`, `get_today`) are the only
    impure inputs of the source; they are threaded as explicit `now` and
    `today` string parameters.
  - Python `sorted` (a stable sort) is modelled by `List.mergeSort`, which is
    also a stable sort; a stable sort by a total preorder is unique, so the
    two agree element for element.
  - Python string methods `.lower() .upper() .title() .strip() .replace`
    are modelled on the basic-latin range, matching the `Char.toLower` and
    `Char.toUpper` primitives.
-/

namespace TaskAPI

/-- Single-quote character as a string, used by the Python `repr` of lists. -/
def sq : String := String.singleton (Char.ofNat 39)

/-- Model of Python `str.lower` (basic-latin range). -/
def pyLower (s : String) : String := ⟨s.data.map Char.toLower⟩

/-- Model of Python `str.upper` (basic-latin range). -/
def pyUpper (s : String) : String := ⟨s.data.map Char.toUpper⟩

/-- Characters stripped by Python `str.strip()`. -/
def pySpace (c : Char) : Bool :=
  c == ' ' || c == '\t' || c == '\n' || c == '\r' || c == '\x0b' || c == '\x0c'

/-- `True` exactly when the Python test `not s or not s.strip()` is true:
the string is empty or consists of whitespace only. -/
def pyIsBlank (s : String) : Bool := s.data.all pySpace

/-- Model of Python `str.strip()`. -/
def pyStrip (s : String) : String :=
  ⟨((s.data.dropWhile pySpace).reverse.dropWhile pySpace).reverse⟩

/-- Helper of `pyTitle`: the boolean records whether the previous character
was alphabetic (cased), in which case the current one is lowercased,
otherwise it starts a word and is uppercased. -/
def pyTitleAux : Bool → List Char → List Char
  | _, [] => []
  | prevCased, c :: cs =>
      (if prevCased then c.toLower else c.toUpper) :: pyTitleAux c.isAlpha cs

/-- Model of Python `str.title` (basic-latin range). -/
def pyTitle (s : String) : String := ⟨pyTitleAux false s.data⟩

/-- Model of Python `.replace("_", " ")`. -/
def underscoreToSpace (s : String) : String :=
  ⟨s.data.map (fun c => if c == '_' then ' ' else c)⟩

/-- Model of Python `sep.join(items)`. -/
def joinSep (sep : String) : List String → String
  | [] => ""
  | [l] => l
  | l :: l₂ :: ls => l ++ sep ++ joinSep sep (l₂ :: ls)

/-- Model of Python `"\n".join(lines)`, how every generator assembles its
final output. -/
def joinNL (ls : List String) : String := joinSep "\n" ls

/-- Python `repr` of a list of strings, as interpolated by f-strings in the
runbook error messages: `['firewall', 'f5', 'circuit']`. -/
def pyStrListRepr (l : List String) : String :=
  "[" ++ joinSep ", " (l.map (fun s => sq ++ s ++ sq)) ++ "]"

/-- Dictionary lookup with default, Python `d.get(k, default)` over a literal
string-keyed table. -/
def lookupD {α : Type} (l : List (String × α)) (k : String) (d : α) : α :=
  match l.find? (fun p => p.1 == k) with
  | some p => p.2
  | none => d

/-- `format_bullet_list` from incident_update.py (indent 0). -/
def bulletList (items : List String) : String :=
  joinNL (items.map (fun i => "- " ++ i))

/-- `format_numbered_list` from incident_update.py. -/
def numberedList (items : List String) : String :=
  joinNL ((items.enumFrom 1).map (fun p => toString p.1 ++ ". " ++ p.2))

/-- The strings that must never leak into a client-audience incident
update: the literal word severity and the raw severity codes. -/
def badPats : List String := ["severity", "P1", "P2", "P3", "P4"]

/-! ## Typed errors

Each `raise ValueError(f"...")` site of the sources becomes one constructor;
`message` reproduces the Python exception text. The spec names the first
kind ValidationError and the runbook lookup failures NotFoundError. The
`attributeError` constructor models the AttributeError the interpreter
raises when the dispatcher reads `skill_type.value` on an object (such as a
plain string) that has no `value` attribute. -/

inductive SkillError where
  | validation (fields : List String)
  | domainNotFound (domain : String) (available : List String)
  | symptomNotFound (symptom : String) (domain : String) (available : List String)
  | attributeError (typeName attrName : String)
deriving DecidableEq

/-- The exact Python exception message for each raise site. -/
def SkillError.message : SkillError → String
  | .validation fields => "Invalid input: " ++ joinSep ", " fields
  | .domainNotFound d avail =>
      "No playbook found for domain: " ++ d ++ ". Available: " ++ pyStrListRepr avail
  | .symptomNotFound s d avail =>
      "Unknown symptom " ++ sq ++ s ++ sq ++ " for domain " ++ sq ++ d ++ sq ++
        ". Available: " ++ pyStrListRepr avail
  | .attributeError typeName attrName =>
      sq ++ typeName ++ sq ++ " object has no attribute " ++ sq ++ attrName ++ sq

/-! ## Task prioritizer (app/skills/task_prioritizer.py) -/

/-- PRIORITY_WEIGHT table (higher = more urgent). -/
def PRIORITY_WEIGHT : List (String × Int) := [("high", 3), ("medium", 2), ("low", 1)]

/-- STATUS_WEIGHT table (in_progress first, then todo, done last). -/
def STATUS_WEIGHT : List (String × Int) := [("in_progress", 3), ("todo", 2), ("done", 1)]

/-- TaskItem dataclass of task_prioritizer.py. -/
structure TaskItem where
  title : String
  status : String := "todo"
  priority : String := "medium"
deriving DecidableEq

/-- `TaskItem.sort_key`: `(-priority_weight, -status_weight, title.lower())`
with default weight 1 for unknown priority or status strings. -/
def TaskItem.sortKey (t : TaskItem) : Int × Int × String :=
  (-(lookupD PRIORITY_WEIGHT (pyLower t.priority) 1),
   -(lookupD STATUS_WEIGHT (pyLower t.status) 1),
   pyLower t.title)

/-- Lexicographic comparison of sort keys: the ordering Python `sorted`
establishes on the key tuples (ascending, so negated weights sort
descending). -/
def keyLE (a b : Int × Int × String) : Bool :=
  decide (a.1 < b.1) ||
    (a.1 == b.1 &&
      (decide (a.2.1 < b.2.1) ||
        (a.2.1 == b.2.1 && decide (a.2.2 ≤ b.2.2))))

/-- Task comparison used for sorting: compare the sort keys. -/
def taskLE (a b : TaskItem) : Bool := keyLE a.sortKey b.sortKey

/-- Loosely-typed task record as read from an input dictionary; a `none`
field models an absent key. -/
structure TaskDict where
  title? : Option String := none
  status? : Option String := none
  priority? : Option String := none
  descr? : Option String := none
  blocked? : Option Bool := none
  blockerReason? : Option String := none
deriving DecidableEq

/-- The `TaskItem(...)` construction in `prioritize_tasks`, with the
`t.get(key, default)` defaults. -/
def toTaskItem (t : TaskDict) : TaskItem :=
  { title := t.title?.getD "Untitled",
    status := t.status?.getD "todo",
    priority := t.priority?.getD "medium" }

/-- The converted task list of `prioritize_tasks`. -/
def taskItems (ts : List TaskDict) : List TaskItem := ts.map toTaskItem

/-- `sorted(task_items, key=lambda t: t.sort_key())`. -/
def sortedTaskItems (ts : List TaskDict) : List TaskItem :=
  (taskItems ts).mergeSort taskLE

/-- `get_reasoning`: priority phrase then status phrase, comma-joined. -/
def getReasoning (t : TaskItem) : String :=
  (if pyLower t.priority == "high" then "high priority"
   else if pyLower t.priority == "medium" then "medium priority"
   else "low priority") ++ ", " ++
  (if pyLower t.status == "in_progress" then "already in progress"
   else if pyLower t.status == "todo" then "ready to start"
   else "completed")

/-- Status icon lookup with `[TODO]` fallback. -/
def statusIcon (t : TaskItem) : String :=
  lookupD [("in_progress", "[IN PROGRESS]"), ("todo", "[TODO]"), ("done", "[DONE]")]
    (pyLower t.status) "[TODO]"

/-- Priority icon lookup with `(-)` fallback. -/
def priorityIcon (t : TaskItem) : String :=
  lookupD [("high", "(!)"), ("medium", "(-)"), ("low", "(.)")]
    (pyLower t.priority) "(-)"

/-- Summary bucket: tasks whose lowercased status is exactly `in_progress`. -/
def inProgressCount (items : List TaskItem) : Nat :=
  items.countP (fun t => pyLower t.status == "in_progress")

/-- Summary bucket: tasks whose lowercased status is exactly `todo`. -/
def todoCount (items : List TaskItem) : Nat :=
  items.countP (fun t => pyLower t.status == "todo")

/-- Summary bucket: tasks whose lowercased status is exactly `done`. -/
def doneCount (items : List TaskItem) : Nat :=
  items.countP (fun t => pyLower t.status == "done")

/-- The three output lines of one numbered entry of the prioritized list. -/
def taskEntryLines (i : Nat) (t : TaskItem) : List String :=
  [toString i ++ ". " ++ priorityIcon t ++ " **" ++ t.title ++ "** " ++ statusIcon t,
   "   _Reason: " ++ getReasoning t ++ "_",
   ""]

/-- The body of the prioritized list: entries numbered from 1. -/
def numberedEntries (items : List TaskItem) : List String :=
  ((items.enumFrom 1).map (fun p => taskEntryLines p.1 p.2)).flatten

/-- Header lines of the prioritized list. -/
def priorityHeader (now : String) (sorted : List TaskItem) : List String :=
  ["# Task Priority List", "",
   "**Generated:** " ++ now,
   "**Total Tasks:** " ++ toString sorted.length,
   "", "---", "", "## Prioritized Order", ""]

/-- Trailing summary lines of the prioritized list: the three status
buckets counted over the rendered tasks. -/
def prioritySummary (sorted : List TaskItem) : List String :=
  ["---", "", "## Summary",
   "- In Progress: " ++ toString (inProgressCount sorted),
   "- To Do: " ++ toString (todoCount sorted),
   "- Completed: " ++ toString (doneCount sorted),
   "",
   "**Focus:** Start with task #1 and work down the list."]

/-- `prioritize_tasks`, with the timestamp as explicit parameter `now`. -/
def prioritizeTasks (now : String) (tasks : List TaskDict) : String :=
  if tasks = [] then "No tasks to prioritize."
  else
    joinNL
      (priorityHeader now (sortedTaskItems tasks) ++
       numberedEntries (sortedTaskItems tasks) ++
       prioritySummary (sortedTaskItems tasks))

/-! ## Daily status summary (app/skills/daily_status_summary.py) -/

/-- TaskItem dataclass of daily_status_summary.py. -/
structure SummaryTask where
  title : String
  status : String := "todo"
  priority : String := "medium"
  descr : Option String := none
  blocked : Bool := false
  blockerReason : Option String := none
deriving DecidableEq

/-- The `TaskItem(...)` construction in `generate_daily_summary`, with the
`t.get(key, default)` defaults. -/
def toSummaryTask (t : TaskDict) : SummaryTask :=
  { title := t.title?.getD "Untitled",
    status := t.status?.getD "todo",
    priority := t.priority?.getD "medium",
    descr := t.descr?,
    blocked := t.blocked?.getD false,
    blockerReason := t.blockerReason? }

/-- The converted task list of `generate_daily_summary`. -/
def summaryTasks (ts : List TaskDict) : List SummaryTask := ts.map toSummaryTask

/-- Group: `status.lower() == "done"`. -/
def completedGroup (items : List SummaryTask) : List SummaryTask :=
  items.filter (fun t => pyLower t.status == "done")

/-- Group: `status.lower() == "in_progress"`. -/
def inProgressGroup (items : List SummaryTask) : List SummaryTask :=
  items.filter (fun t => pyLower t.status == "in_progress")

/-- Group: `t.blocked` (regardless of status). -/
def blockedGroup (items : List SummaryTask) : List SummaryTask :=
  items.filter (fun t => t.blocked)

/-- Group: `status.lower() == "todo" and not t.blocked`. -/
def todoGroup (items : List SummaryTask) : List SummaryTask :=
  items.filter (fun t => pyLower t.status == "todo" && !t.blocked)

/-- `high_priority_todo[:3] if high_priority_todo else todo[:3]`. -/
def nextUpGroup (items : List SummaryTask) : List SummaryTask :=
  let hp := (todoGroup items).filter (fun t => pyLower t.priority == "high")
  if hp = [] then (todoGroup items).take 3 else hp.take 3

/-- `f"[{task.priority.upper()}]" if task.priority.lower() == "high" else ""`. -/
def highTag (t : SummaryTask) : String :=
  if pyLower t.priority == "high" then "[" ++ pyUpper t.priority ++ "]" else ""

/-- `f"- {task.title} {priority_tag}".strip()`, the In Progress and Next Up
line format. -/
def taggedLine (t : SummaryTask) : String :=
  pyStrip ("- " ++ t.title ++ " " ++ highTag t)

/-- Blocked section line: the blocker reason is appended when truthy. -/
def blockedLine (t : SummaryTask) : String :=
  "- " ++ t.title ++
    (match t.blockerReason with
     | some r => if r == "" then "" else " - " ++ r
     | none => "")

/-- `generate_daily_summary`, with the two wall-clock reads as explicit
parameters `now` and `today`. -/
def generateDailySummary (now today : String) (tasks : List TaskDict)
    (summaryDate : Option String) (teamName : String) : String :=
  let date := summaryDate.getD today
  let items := summaryTasks tasks
  let completed := completedGroup items
  let inProgress := inProgressGroup items
  let blocked := blockedGroup items
  let todo := todoGroup items
  let nextUp := nextUpGroup items
  joinNL
    (["# Daily Status Summary - " ++ teamName, "",
      "**Date:** " ++ date,
      "**Generated:** " ++ now,
      "", "---", "",
      "## Completed"] ++
     (if completed = [] then ["- _No tasks completed_"]
      else completed.map (fun t => "- " ++ t.title)) ++
     ["", "## In Progress"] ++
     (if inProgress = [] then ["- _No tasks in progress_"]
      else inProgress.map taggedLine) ++
     ["", "## Blocked"] ++
     (if blocked = [] then ["- _No blockers_"] else blocked.map blockedLine) ++
     ["", "## Next Up"] ++
     (if nextUp = [] then ["- _No pending tasks_"] else nextUp.map taggedLine) ++
     ["", "---", "",
      "## Quick Stats",
      "| Status | Count |",
      "|--------|-------|",
      "| Completed | " ++ toString completed.length ++ " |",
      "| In Progress | " ++ toString inProgress.length ++ " |",
      "| Blocked | " ++ toString blocked.length ++ " |",
      "| To Do | " ++ toString todo.length ++ " |",
      "| **Total** | **" ++ toString items.length ++ "** |"])

/-! ## Runbook generator (app/skills/reused/runbook_generator.py) -/

/-- One diagnostic step descriptor of the playbook tables. -/
structure DiagStep where
  step : String
  mode : String := "gui_only"
deriving DecidableEq

/-- One symptom entry of a playbook. -/
structure SymptomEntry where
  explanation : String
  diagnosticSteps : List DiagStep
  evidenceChecklist : List String
  stopConditions : List String
deriving DecidableEq

/-- One per-domain playbook. -/
structure Playbook where
  name : String
  escalationPath : String
  symptoms : List (String × SymptomEntry)
deriving DecidableEq

/-- The static PLAYBOOKS table, transliterated from the source. -/
def PLAYBOOKS : List (String × Playbook) :=
  [("firewall",
    { name := "Firewall Troubleshooting",
      escalationPath := "Contact Firewall Team Lead or Security Operations",
      symptoms :=
        [("high_cpu",
          { explanation := "Firewall CPU utilization exceeds normal thresholds, potentially impacting traffic inspection.",
            diagnosticSteps :=
              [{ step := "Check CPU utilization in dashboard" },
               { step := "Review active connections count" },
               { step := "Check for unusual traffic patterns in logs" },
               { step := "Verify NAT session counts" },
               { step := "Review recent policy changes" }],
            evidenceChecklist :=
              ["Screenshot of CPU utilization graph (last 24h)",
               "Active connection count",
               "Top talkers report",
               "Recent policy change log"],
            stopConditions :=
              ["CPU exceeds 95% for more than 5 minutes",
               "Packet drops reported",
               "Management interface unresponsive"] }),
         ("connectivity_loss",
          { explanation := "Traffic is not passing through the firewall as expected.",
            diagnosticSteps :=
              [{ step := "Verify interface status in dashboard" },
               { step := "Check policy rules for the affected traffic" },
               { step := "Review deny logs for blocked traffic" },
               { step := "Verify NAT rules if applicable" },
               { step := "Check routing table entries" }],
            evidenceChecklist :=
              ["Interface status screenshot",
               "Relevant policy rules screenshot",
               "Deny log entries for affected source/destination",
               "NAT configuration if applicable"],
            stopConditions :=
              ["Multiple zones affected",
               "Unable to identify blocking rule",
               "Suspected security incident"] })] }),
   ("f5",
    { name := "F5 Load Balancer Troubleshooting",
      escalationPath := "Contact F5 Team Lead or Application Delivery",
      symptoms :=
        [("pool_down",
          { explanation := "One or more pool members are marked down, affecting load balancing.",
            diagnosticSteps :=
              [{ step := "Check pool member status in GUI" },
               { step := "Review health monitor results" },
               { step := "Verify backend server connectivity" },
               { step := "Check for SSL certificate issues" },
               { step := "Review pool statistics for error patterns" }],
            evidenceChecklist :=
              ["Pool status screenshot",
               "Health monitor configuration",
               "Recent pool statistics",
               "Backend server health check results"],
            stopConditions :=
              ["All pool members down",
               "SSL handshake failures increasing",
               "Application team reports service outage"] }),
         ("ssl_error",
          { explanation := "SSL/TLS termination issues affecting client connections.",
            diagnosticSteps :=
              [{ step := "Check SSL profile configuration" },
               { step := "Verify certificate validity and chain" },
               { step := "Review cipher suite settings" },
               { step := "Check client-side SSL logs" },
               { step := "Verify SNI configuration if applicable" }],
            evidenceChecklist :=
              ["Certificate details screenshot",
               "SSL profile configuration",
               "Error log entries",
               "Cipher suite list"],
            stopConditions :=
              ["Certificate expired",
               "Certificate chain incomplete",
               "Multiple applications affected"] })] }),
   ("circuit",
    { name := "Circuit/WAN Troubleshooting",
      escalationPath := "Contact Network Operations or Carrier Support",
      symptoms :=
        [("latency",
          { explanation := "Network latency exceeds acceptable thresholds for the circuit.",
            diagnosticSteps :=
              [{ step := "Check interface error counters" },
               { step := "Review bandwidth utilization graphs" },
               { step := "Verify QoS policy application" },
               { step := "Check for packet drops at interface" },
               { step := "Review carrier SLA metrics if available" }],
            evidenceChecklist :=
              ["Latency graph (last 24h)",
               "Bandwidth utilization graph",
               "Interface error counters",
               "QoS policy screenshot"],
            stopConditions :=
              ["Latency exceeds SLA threshold",
               "Packet loss detected",
               "Circuit errors increasing"] }),
         ("flapping",
          { explanation := "Circuit or interface is repeatedly going up and down.",
            diagnosticSteps :=
              [{ step := "Check interface status history" },
               { step := "Review optical power levels if fiber" },
               { step := "Check for physical layer errors" },
               { step := "Verify both ends report same status" },
               { step := "Review recent changes at physical layer" }],
            evidenceChecklist :=
              ["Interface state change log",
               "Optical power readings",
               "Physical layer error counters",
               "Both-end status comparison"],
            stopConditions :=
              ["Flapping continues after 15 minutes",
               "Multiple circuits affected",
               "Physical layer errors increasing"] })] })]

/-- All symptom-category keys appearing anywhere in the playbook table. -/
def allSymptomKeys : List String :=
  (PLAYBOOKS.map (fun p => p.2.symptoms.map (fun q => q.1))).flatten

/-- `RunbookInput.validate`: list of error strings for blank required fields. -/
def runbookValidate (domain symptomCategory : String) : List String :=
  (if pyIsBlank domain then ["domain is required"] else []) ++
  (if pyIsBlank symptomCategory then ["symptom_category is required"] else [])

/-- `render_runbook_template`. -/
def renderRunbook (domain symptomCategory accessMode environment now : String)
    (entry : SymptomEntry) (escalationPath : String) : String :=
  joinNL
    (["# Troubleshooting Runbook: " ++ pyUpper domain ++ " - " ++
        pyTitle (underscoreToSpace symptomCategory),
      "",
      "**Environment:** " ++ pyUpper environment ++ " | **Access Mode:** " ++ accessMode,
      "**Generated:** " ++ now,
      "",
      "## Symptom Explanation",
      entry.explanation,
      "",
      "## Safe Diagnostic Steps"] ++
     (entry.diagnosticSteps.enumFrom 1).map
       (fun p => toString p.1 ++ ". " ++ p.2.step) ++
     ["", "## Evidence Checklist"] ++
     entry.evidenceChecklist.map (fun i => "- [ ] " ++ i) ++
     ["", "## STOP Conditions (Escalate Immediately)"] ++
     entry.stopConditions.map (fun i => "- " ++ i) ++
     ["", "**Escalation Path:** " ++ escalationPath])

/-- `generate_runbook`: validate, then domain lookup, then symptom lookup,
then render. Each raise site becomes an `Except.error`. -/
def generateRunbook (domain symptomCategory accessMode environment now : String) :
    Except SkillError String :=
  let errors := runbookValidate domain symptomCategory
  if errors ≠ [] then .error (.validation errors)
  else
    match lookupD (PLAYBOOKS.map (fun p => (p.1, some p.2))) domain none with
    | none => .error (.domainNotFound domain (PLAYBOOKS.map (fun p => p.1)))
    | some pb =>
      match lookupD (pb.symptoms.map (fun p => (p.1, some p.2))) symptomCategory none with
      | none => .error (.symptomNotFound symptomCategory domain (pb.symptoms.map (fun p => p.1)))
      | some entry =>
        .ok (renderRunbook domain symptomCategory accessMode environment now
              entry pb.escalationPath)

/-! ## Incident update composer (app/skills/reused/incident_update.py) -/

/-- `get_next_steps`: the DEFAULTS next-steps table keyed by current status,
with the generic fallback for unrecognized statuses. -/
def getNextSteps (status : String) : List String :=
  if status == "investigating" then
    ["Continue analyzing logs and alerts",
     "Gather additional evidence",
     "Identify root cause"]
  else if status == "identified" then
    ["Implement fix",
     "Test in staging environment",
     "Schedule production deployment"]
  else if status == "mitigating" then
    ["Monitor service recovery",
     "Validate fix effectiveness",
     "Document resolution steps"]
  else if status == "resolved" then
    ["Complete post-incident documentation",
     "Schedule post-mortem meeting",
     "Update runbooks if needed"]
  else ["Continue investigation"]

/-- `get_next_update_time`: interval by severity with default `1 hour`. -/
def getNextUpdateTime (severity : String) : String :=
  if severity == "P1" then "30 minutes"
  else if severity == "P2" then "1 hour"
  else if severity == "P3" then "2 hours"
  else if severity == "P4" then "4 hours"
  else "1 hour"

/-- The static evidence checklist offered when no evidence was supplied. -/
def evidenceChecklistDefault : List String :=
  ["Screenshots of error messages/alerts",
   "Relevant log entries with timestamps",
   "Timeline of events"]

/-- `IncidentInput.validate`. -/
def incidentValidate (incidentTitle impactSummary : String) : List String :=
  (if pyIsBlank incidentTitle then ["incident_title is required"] else []) ++
  (if pyIsBlank impactSummary then ["impact_summary is required"] else [])

/-- Head lines of `render_client_template`, before the next-steps bullets. -/
def clientHeadLines (incidentTitle impactSummary currentStatus now : String) :
    List String :=
  ["# Service Update: " ++ incidentTitle,
   "",
   "**Status:** " ++ pyTitle currentStatus,
   "**Updated:** " ++ now,
   "",
   "## Current Situation",
   impactSummary,
   "",
   "## What We" ++ sq ++ "re Doing"]

/-- Tail lines of `render_client_template`, after the next-steps bullets. -/
def clientTailLines (nextUpdateTime : String) : List String :=
  ["",
   "We will provide another update in " ++ nextUpdateTime ++ ".",
   "",
   "Thank you for your patience."]

/-- The line list of `render_client_template`; the renderer shows only the
first two next steps (`context["next_steps"][:2]`). -/
def clientLines (incidentTitle impactSummary currentStatus now nextUpdateTime : String)
    (nextSteps : List String) : List String :=
  clientHeadLines incidentTitle impactSummary currentStatus now ++
  (nextSteps.take 2).map (fun s => "- " ++ s) ++
  clientTailLines nextUpdateTime

/-- The line list of `render_manager_template`. -/
def managerLines (incidentTitle impactSummary severity currentStatus now nextUpdateTime : String)
    (checksDone evidence : List String) : List String :=
  ["# Incident Update: " ++ incidentTitle,
   "",
   "**Severity:** " ++ severity ++ " | **Status:** " ++ pyTitle currentStatus,
   "**Generated:** " ++ now,
   "",
   "## Impact Summary",
   impactSummary,
   ""] ++
  (if checksDone ≠ [] then
    ["## Diagnostic Checks Completed", bulletList checksDone, ""]
   else []) ++
  (if evidence ≠ [] then
    ["## Evidence Collected", bulletList evidence, ""]
   else
    ["## Evidence To Collect", bulletList evidenceChecklistDefault, ""]) ++
  ["## Next Steps",
   numberedList (getNextSteps currentStatus),
   "",
   "**Next Update:** " ++ nextUpdateTime]

/-- The `if not input_data.next_update_time` auto-fill: a falsy
`next_update_time` (absent or empty) is replaced by the severity-derived
interval. -/
def resolvedNut (nextUpdateTime : Option String) (severity : String) : String :=
  match nextUpdateTime with
  | some s => if s == "" then getNextUpdateTime severity else s
  | none => getNextUpdateTime severity

/-- The full client-audience output string. -/
def clientOutput (incidentTitle impactSummary severity currentStatus : String)
    (nextUpdateTime : Option String) (now : String) : String :=
  joinNL (clientLines incidentTitle impactSummary currentStatus now
    (resolvedNut nextUpdateTime severity) (getNextSteps currentStatus))

/-- `generate_incident_update`. -/
def generateIncidentUpdate (incidentTitle impactSummary audience severity
    currentStatus : String) (nextUpdateTime : Option String)
    (checksDone evidence : List String) (now : String) : Except SkillError String :=
  let errors := incidentValidate incidentTitle impactSummary
  if errors ≠ [] then .error (.validation errors)
  else if audience == "client" then
    .ok (clientOutput incidentTitle impactSummary severity currentStatus nextUpdateTime now)
  else
    .ok (joinNL (managerLines incidentTitle impactSummary severity currentStatus now
          (resolvedNut nextUpdateTime severity) checksDone evidence))

/-! ## FCR content generator (app/skills/reused/fcr_autofill.py) -/

/-- `FCRInput.validate`. -/
def fcrValidate (purpose : String) : List String :=
  if pyIsBlank purpose then ["purpose is required"] else []

/-- TECHNICAL_DESCRIPTIONS with the `.format(...)` substitution applied; the
final branch is the `.get` fallback to the firewall_rule template. -/
def techDescription (changeType purpose direction ruleCount : String) : String :=
  if changeType == "firewall_rule" then
    "Add firewall rule to " ++ direction ++ " traffic for " ++ purpose ++
      ". Rule count: " ++ ruleCount ++ "."
  else if changeType == "nat_change" then
    "Configure NAT translation for " ++ purpose ++ ". Direction: " ++ direction ++ "."
  else if changeType == "f5_ssl" then
    "Update F5 SSL profile/certificate for " ++ purpose ++ "."
  else if changeType == "routing_change" then
    "Modify routing configuration for " ++ purpose ++ ". Direction: " ++ direction ++ "."
  else if changeType == "acl_update" then
    "Update access control list for " ++ purpose ++ ". Direction: " ++ direction ++ "."
  else if changeType == "vpn_config" then
    "Configure VPN settings for " ++ purpose ++ "."
  else
    "Add firewall rule to " ++ direction ++ " traffic for " ++ purpose ++
      ". Rule count: " ++ ruleCount ++ "."

/-- The TESTS_BY_TYPE entry for firewall_rule, also the `.get` fallback. -/
def firewallRuleTests : List String :=
  ["Verify rule syntax in staging/lab environment",
   "Confirm source/destination objects exist",
   "Test connectivity with rule in place (lab)",
   "Verify logging is enabled for new rule"]

/-- TESTS_BY_TYPE lookup with firewall_rule fallback. -/
def testsFor (changeType : String) : List String :=
  lookupD
    [("firewall_rule", firewallRuleTests),
     ("nat_change",
      ["Verify NAT translation in lab environment",
       "Confirm IP addresses are not in use elsewhere",
       "Test end-to-end connectivity through NAT"]),
     ("f5_ssl",
      ["Validate certificate chain completeness",
       "Verify certificate expiry date",
       "Test SSL handshake in staging",
       "Confirm cipher suite compatibility"]),
     ("routing_change",
      ["Verify route does not conflict with existing routes",
       "Test reachability in lab environment",
       "Confirm BGP/OSPF adjacencies stable after change"]),
     ("acl_update",
      ["Verify ACL syntax",
       "Test ACL in lab environment",
       "Confirm no unintended traffic blocked"]),
     ("vpn_config",
      ["Verify tunnel parameters match peer",
       "Test tunnel establishment in lab",
       "Confirm encryption settings are compliant"])]
    changeType firewallRuleTests

/-- The ROLLBACK_BY_TYPE entry for firewall_rule, also the `.get` fallback. -/
def firewallRuleRollback : List String :=
  ["Remove newly added rule(s)",
   "Restore previous rule configuration if modified",
   "Verify traffic flow returns to pre-change state"]

/-- ROLLBACK_BY_TYPE lookup with firewall_rule fallback. -/
def rollbackFor (changeType : String) : List String :=
  lookupD
    [("firewall_rule", firewallRuleRollback),
     ("nat_change",
      ["Remove NAT translation entry",
       "Restore original NAT configuration",
       "Verify connectivity restored"]),
     ("f5_ssl",
      ["Revert to previous SSL profile",
       "Restore previous certificate",
       "Verify SSL termination functional"]),
     ("routing_change",
      ["Remove added route(s)",
       "Restore previous routing configuration",
       "Verify routing table stable"]),
     ("acl_update",
      ["Revert ACL to previous version",
       "Verify traffic flow restored"]),
     ("vpn_config",
      ["Disable new VPN configuration",
       "Restore previous VPN settings",
       "Verify tunnel stability"])]
    changeType firewallRuleRollback

/-- IMPACT_BY_RISK lookup; the `.get` default is the low entry. -/
def impactFor (riskLevel : String) : String :=
  lookupD
    [("low", "Minimal impact expected. Change affects limited scope with no service disruption."),
     ("medium", "Moderate impact possible. Brief connectivity interruption may occur during implementation."),
     ("high", "Significant impact possible. Service disruption expected during maintenance window.")]
    riskLevel
    "Minimal impact expected. Change affects limited scope with no service disruption."

/-- ROLLBACK_TIME lookup; the `.get` default is the low entry. -/
def rollbackTimeFor (riskLevel : String) : String :=
  lookupD [("low", "< 5 minutes"), ("medium", "5-15 minutes"), ("high", "15-30 minutes")]
    riskLevel "< 5 minutes"

/-- CHECKLIST_ITEMS, identical for every change type. -/
def CHECKLIST_ITEMS : List String :=
  ["Change reviewed and approved by team lead",
   "Rollback procedure documented and tested",
   "Maintenance window scheduled (if required)",
   "Stakeholders notified",
   "Monitoring alerts configured"]

/-- EVIDENCE_CHECKLIST, identical for every change type. -/
def EVIDENCE_CHECKLIST : List String :=
  ["Pre-change configuration backup",
   "Screenshot of change implementation",
   "Post-change verification results",
   "Test results documentation"]

/-- `render_fcr_template` specialized to the context built by
`generate_fcr_content`. -/
def renderFcr (purpose changeType ruleCount direction riskLevel environment now : String) :
    String :=
  joinNL
    (["# FCR Section Content", "",
      "**Generated:** " ++ now,
      "**Change Type:** " ++ pyTitle (underscoreToSpace changeType),
      "**Environment:** " ++ pyUpper environment,
      "**Risk Level:** " ++ pyUpper riskLevel,
      "", "---", "",
      "## 1. Purpose / Business Justification",
      purpose,
      "",
      "## 2. Technical Description",
      techDescription changeType purpose direction ruleCount,
      "",
      "## 3. Tests Conducted"] ++
     (testsFor changeType).map (fun t => "- [ ] " ++ t) ++
     ["",
      "## 4. Impact Assessment",
      impactFor riskLevel,
      "",
      "**Affected Systems:**",
      "- " ++ pyUpper environment ++ " " ++ pyTitle (underscoreToSpace changeType) ++
        " infrastructure",
      "",
      "## 5. Rollback Procedure",
      "**Estimated Rollback Time:** " ++ rollbackTimeFor riskLevel,
      ""] ++
     ((rollbackFor changeType).enumFrom 1).map (fun p => toString p.1 ++ ". " ++ p.2) ++
     ["", "## 6. Pre-Implementation Checklist"] ++
     CHECKLIST_ITEMS.map (fun i => "- [ ] " ++ i) ++
     ["", "## 7. Evidence Checklist"] ++
     EVIDENCE_CHECKLIST.map (fun i => "- [ ] " ++ i))

/-- `generate_fcr_content`. -/
def generateFcrContent (purpose changeType ruleCount direction riskLevel
    environment now : String) : Except SkillError String :=
  let errors := fcrValidate purpose
  if errors ≠ [] then .error (.validation errors)
  else .ok (renderFcr purpose changeType ruleCount direction riskLevel environment now)

/-! ## Skill dispatcher (app/services/skill_service.py)

The skill kind is modelled as a string tag so that the unrecognized-kind
branch of `execute_skill` is expressible; for the five members of the
`SkillType` enum the tag is the enum value. The source computes `output`
in an if/elif/else chain and only then returns
`{"skill_type": skill_type.value, "output": output}`: that `.value` access
sits outside the chain. A recognized tag is only realizable as a genuine
`SkillType` member (a str-enum, compared by its string value), whose
`.value` succeeds and yields the tag; an unrecognized tag is only
realizable as a non-member such as a plain string, which has no `value`
attribute, so the access raises AttributeError and the prepared
unknown-skill message is discarded. -/

/-- Heterogeneous payload value of the untyped input dictionary. -/
inductive Value where
  | vStr (s : String)
  | vStrList (l : List String)
  | vTasks (l : List TaskDict)
deriving DecidableEq

/-- Untyped input dictionary. -/
abbrev InputMap := List (String × Value)

/-- Raw dictionary lookup. -/
def lookupV (m : InputMap) (k : String) : Option Value :=
  (m.find? (fun p => p.1 == k)).map (fun p => p.2)

/-- `payload.get(k, default)` for a string-valued field. -/
def getStr (m : InputMap) (k : String) (d : String) : String :=
  match lookupV m k with
  | some (.vStr s) => s
  | _ => d

/-- `payload.get(k)` for an optional string-valued field. -/
def getStrOpt (m : InputMap) (k : String) : Option String :=
  match lookupV m k with
  | some (.vStr s) => some s
  | _ => none

/-- `payload.get(k, [])` for a list-of-strings field. -/
def getStrList (m : InputMap) (k : String) : List String :=
  match lookupV m k with
  | some (.vStrList l) => l
  | _ => []

/-- `payload.get(k, [])` for the tasks field. -/
def getTasks (m : InputMap) (k : String) : List TaskDict :=
  match lookupV m k with
  | some (.vTasks l) => l
  | _ => []

/-- The `{skill_type, output}` envelope returned by the dispatcher. -/
structure Envelope where
  skill_type : String
  output : String
deriving DecidableEq

/-- The `skill_type.value` read in the dispatcher's return statement: it
succeeds with the tag for the five enum members and raises AttributeError
for any other (plain-string) tag. -/
def skillTypeValue (skillType : String) : Except SkillError String :=
  if skillType == "incident" || skillType == "runbook" || skillType == "fcr" ||
      skillType == "prioritizer" || skillType == "daily_summary" then
    .ok skillType
  else
    .error (.attributeError "str" "value")

/-- `execute_skill`: route by tag, extract fields with defaults, compute the
output string (generator errors propagate; the final branch prepares the
permissive unknown-kind message), then build the envelope, whose
`skill_type.value` read fails for a tag that is not an enum member. -/
def executeSkill (skillType : String) (m : InputMap) (now today : String) :
    Except SkillError Envelope :=
  let output : Except SkillError String :=
    if skillType == "incident" then
      generateIncidentUpdate (getStr m "incident_title" "") (getStr m "impact_summary" "")
        (getStr m "audience" "manager") (getStr m "severity" "P2")
        (getStr m "current_status" "investigating") (getStrOpt m "next_update_time")
        (getStrList m "checks_done") (getStrList m "evidence") now
    else if skillType == "runbook" then
      generateRunbook (getStr m "domain" "firewall") (getStr m "symptom_category" "high_cpu")
        (getStr m "access_mode" "gui_only") (getStr m "environment" "prod") now
    else if skillType == "fcr" then
      generateFcrContent (getStr m "purpose" "") (getStr m "change_type" "firewall_rule")
        (getStr m "rule_count" "single") (getStr m "direction" "inbound")
        (getStr m "risk_level" "low") (getStr m "environment" "prod") now
    else if skillType == "prioritizer" then
      .ok (prioritizeTasks now (getTasks m "tasks"))
    else if skillType == "daily_summary" then
      .ok (generateDailySummary now today (getTasks m "tasks") (getStrOpt m "date")
        (getStr m "team_name" "Network Operations"))
    else
      .ok ("Unknown skill type: " ++ skillType)
  output.bind (fun out => (skillTypeValue skillType).map (fun v => ⟨v, out⟩))

/-! ## Helper lemmas -/

theorem char_toNat_ofNat_valid (n : Nat) (h : n.isValidChar) :
    (Char.ofNat n).toNat = n := by
  rw [Char.ofNat, dif_pos h]
  rfl

theorem char_toLower_toUpper (c : Char) : c.toUpper.toLower = c.toLower := by
  simp only [Char.toUpper, Char.toLower]
  split
  case isTrue h =>
    have hv : Nat.isValidChar (c.toNat - 32) := Or.inl (by omega)
    have ht : (Char.ofNat (c.toNat - 32)).toNat = c.toNat - 32 :=
      char_toNat_ofNat_valid _ hv
    rw [ht, if_pos (by omega : c.toNat - 32 ≥ 65 ∧ c.toNat - 32 ≤ 90),
      if_neg (by omega : ¬ (c.toNat ≥ 65 ∧ c.toNat ≤ 90))]
    have h32 : c.toNat - 32 + 32 = c.toNat := by omega
    rw [h32, Char.ofNat_toNat]
  case isFalse h => rfl

theorem char_toLower_toLower (c : Char) : c.toLower.toLower = c.toLower := by
  simp only [Char.toLower]
  split
  case isTrue h =>
    have hv : Nat.isValidChar (c.toNat + 32) := Or.inl (by omega)
    have ht : (Char.ofNat (c.toNat + 32)).toNat = c.toNat + 32 :=
      char_toNat_ofNat_valid _ hv
    rw [ht, if_neg (by omega : ¬ (c.toNat + 32 ≥ 65 ∧ c.toNat + 32 ≤ 90))]
  case isFalse h => rfl

theorem pyTitleAux_map_toLower (b : Bool) (l : List Char) :
    (pyTitleAux b l).map Char.toLower = l.map Char.toLower := by
  induction l generalizing b with
  | nil => rfl
  | cons c cs ih =>
    simp only [pyTitleAux, List.map_cons, ih]
    congr 1
    split
    · exact char_toLower_toLower c
    · exact char_toLower_toUpper c

theorem prefix_of_prefix_append_cons {pat xs ys : List Char} {c : Char}
    (hc : c ∉ pat) (h : pat <+: xs ++ c :: ys) : pat <+: xs := by
  induction pat generalizing xs with
  | nil => exact List.nil_prefix
  | cons p ps ih =>
    cases xs with
    | nil =>
      rcases List.cons_prefix_cons.mp h with ⟨rfl, -⟩
      exact absurd (List.mem_cons_self _ _) hc
    | cons x xs =>
      rcases List.cons_prefix_cons.mp h with ⟨rfl, h2⟩
      exact List.cons_prefix_cons.mpr
        ⟨rfl, ih (fun hm => hc (List.mem_cons_of_mem _ hm)) h2⟩

theorem infix_split_at_sep {pat xs ys : List Char} {c : Char}
    (hc : c ∉ pat) (h : pat <:+: xs ++ c :: ys) : pat <:+: xs ∨ pat <:+: ys := by
  induction xs with
  | nil =>
    rcases List.infix_cons_iff.mp h with hpre | hinf
    · cases pat with
      | nil => exact Or.inl List.nil_infix
      | cons p ps =>
        rcases List.cons_prefix_cons.mp hpre with ⟨rfl, -⟩
        exact absurd (List.mem_cons_self _ _) hc
    · exact Or.inr hinf
  | cons x xs ih =>
    rcases List.infix_cons_iff.mp h with hpre | hinf
    · left
      have hp : pat <+: (x :: xs) := prefix_of_prefix_append_cons hc (by simpa using hpre)
      exact hp.isInfix
    · rcases ih hinf with h1 | h2
      · exact Or.inl (h1.trans (List.infix_cons_iff.mpr (Or.inr List.infix_rfl)))
      · exact Or.inr h2

theorem not_infix_append_cons {pat xs ys : List Char} {c : Char}
    (hc : c ∉ pat) (hx : ¬ pat <:+: xs) (hy : ¬ pat <:+: ys) :
    ¬ pat <:+: xs ++ c :: ys := by
  intro h
  rcases infix_split_at_sep hc h with h1 | h2
  · exact hx h1
  · exact hy h2

theorem infix_map_mono {f : Char → Char} {p l : List Char} (h : p <:+: l) :
    p.map f <:+: l.map f := by
  rcases h with ⟨s, t, rfl⟩
  exact ⟨s.map f, t.map f, by simp⟩

theorem data_joinNL_cons₂ (l l₂ : String) (ls : List String) :
    (joinNL (l :: l₂ :: ls)).data = l.data ++ '\n' :: (joinNL (l₂ :: ls)).data := by
  show (l ++ "\n" ++ joinSep "\n" (l₂ :: ls)).data = _
  simp [String.data_append, joinNL]

theorem mem_infix_joinNL {l : String} {ls : List String} (h : l ∈ ls) :
    l.data <:+: (joinNL ls).data := by
  induction ls with
  | nil => cases h
  | cons x xs ih =>
    cases xs with
    | nil =>
      rcases List.mem_singleton.mp h with rfl
      exact List.infix_rfl
    | cons y ys =>
      rw [data_joinNL_cons₂]
      rcases List.mem_cons.mp h with rfl | hm
      · exact (List.prefix_append _ _).isInfix
      · refine (ih hm).trans ⟨x.data ++ ['\n'], [], by simp⟩

theorem not_infix_joinNL {pat : List Char} (hne : pat ≠ []) (hnl : '\n' ∉ pat) :
    ∀ ls : List String, (∀ l ∈ ls, ¬ pat <:+: l.data) → ¬ pat <:+: (joinNL ls).data
  | [], _ => by
    intro hbad
    exact hne (List.eq_nil_of_infix_nil hbad)
  | [x], h => by
    simpa [joinNL, joinSep] using h x (List.mem_singleton.mpr rfl)
  | x :: y :: ls, h => by
    rw [data_joinNL_cons₂]
    exact not_infix_append_cons hnl (h x (by simp))
      (not_infix_joinNL hne hnl (y :: ls) (fun l hl => h l (List.mem_cons_of_mem _ hl)))

theorem infix_pyTitle_lower {pat : List Char} {s : String}
    (h : pat <:+: (pyTitle s).data) :
    pat.map Char.toLower <:+: (pyLower s).data := by
  have hm := infix_map_mono (f := Char.toLower) h
  have hdata : (pyTitle s).data.map Char.toLower = (pyLower s).data := by
    show (pyTitleAux false s.data).map Char.toLower = s.data.map Char.toLower
    exact pyTitleAux_map_toLower false s.data
  rwa [hdata] at hm

theorem keyLE_total (a b : Int × Int × String) : keyLE a b || keyLE b a := by
  simp only [keyLE, Bool.or_eq_true, Bool.and_eq_true, decide_eq_true_eq, beq_iff_eq]
  rcases lt_trichotomy a.1 b.1 with h | h | h
  · tauto
  · rcases lt_trichotomy a.2.1 b.2.1 with h2 | h2 | h2
    · tauto
    · rcases le_total a.2.2 b.2.2 with h3 | h3 <;> tauto
    · tauto
  · tauto

theorem keyLE_trans (a b c : Int × Int × String) (h1 : keyLE a b) (h2 : keyLE b c) :
    keyLE a c := by
  simp only [keyLE, Bool.or_eq_true, Bool.and_eq_true, decide_eq_true_eq,
    beq_iff_eq] at h1 h2 ⊢
  rcases h1 with h1 | ⟨e1, h1⟩
  · rcases h2 with h2 | ⟨e2, h2⟩
    · exact Or.inl (h1.trans h2)
    · exact Or.inl (e2 ▸ h1)
  · rcases h2 with h2 | ⟨e2, h2⟩
    · exact Or.inl (e1 ▸ h2)
    · refine Or.inr ⟨e1.trans e2, ?_⟩
      rcases h1 with h1 | ⟨f1, h1⟩
      · rcases h2 with h2 | ⟨f2, h2⟩
        · exact Or.inl (h1.trans h2)
        · exact Or.inl (f2 ▸ h1)
      · rcases h2 with h2 | ⟨f2, h2⟩
        · exact Or.inl (f1 ▸ h2)
        · exact Or.inr ⟨f1.trans f2, h1.trans h2⟩

theorem taskLE_total (a b : TaskItem) : taskLE a b || taskLE b a :=
  keyLE_total a.sortKey b.sortKey

theorem taskLE_trans (a b c : TaskItem) (h1 : taskLE a b) (h2 : taskLE b c) :
    taskLE a c :=
  keyLE_trans a.sortKey b.sortKey c.sortKey h1 h2

/-! ## Claims -/

/-- C9: when both incident_title and impact_summary are blank or absent, the
incident generator fails with a single ValidationError whose message lists
both missing fields (not only the first one found). -/
theorem C9_incident_both_blank_lists_both (incidentTitle impactSummary audience severity
    currentStatus : String) (nextUpdateTime : Option String)
    (checksDone evidence : List String) (now : String)
    (h1 : pyIsBlank incidentTitle = true) (h2 : pyIsBlank impactSummary = true) :
    generateIncidentUpdate incidentTitle impactSummary audience severity currentStatus
        nextUpdateTime checksDone evidence now =
      .error (.validation ["incident_title is required", "impact_summary is required"]) ∧
    (SkillError.validation
        ["incident_title is required", "impact_summary is required"]).message =
      "Invalid input: incident_title is required, impact_summary is required" ∧
    "incident_title is required".data <:+:
      (SkillError.validation
        ["incident_title is required", "impact_summary is required"]).message.data ∧
    "impact_summary is required".data <:+:
      (SkillError.validation
        ["incident_title is required", "impact_summary is required"]).message.data := by
  refine ⟨?_, by decide, by decide, by decide⟩
  simp [generateIncidentUpdate, incidentValidate, h1, h2]

/-- Witness for C9 at blank inputs. -/
theorem C9_incident_both_blank_lists_both_witness :
    pyIsBlank "" = true ∧ pyIsBlank " " = true ∧
    generateIncidentUpdate "" " " "manager" "P2" "investigating" none [] [] "TS" =
      .error (.validation ["incident_title is required", "impact_summary is required"]) :=
  ⟨by decide, by decide,
   (C9_incident_both_blank_lists_both "" " " "manager" "P2" "investigating" none [] [] "TS"
     (by decide) (by decide)).1⟩

/-- C4 (code bug): the claim states the intended behavior of the else
branch, but dispatching an unrecognized plain-string tag raises
AttributeError at the unconditional `skill_type.value` read in the return
statement, so the prepared unknown-skill envelope is never returned; the
five recognized enum members are the only tags whose `.value` read
succeeds. -/
theorem C4_unknown_kind_attribute_error :
    executeSkill "bogus" [] "TS" "TD" = .error (.attributeError "str" "value") ∧
    skillTypeValue "bogus" = .error (.attributeError "str" "value") ∧
    (SkillError.attributeError "str" "value").message =
      sq ++ "str" ++ sq ++ " object has no attribute " ++ sq ++ "value" ++ sq ∧
    skillTypeValue "incident" = .ok "incident" ∧
    skillTypeValue "runbook" = .ok "runbook" ∧
    skillTypeValue "fcr" = .ok "fcr" ∧
    skillTypeValue "prioritizer" = .ok "prioritizer" ∧
    skillTypeValue "daily_summary" = .ok "daily_summary" :=
  ⟨rfl, rfl, rfl, rfl, rfl, rfl, rfl, rfl⟩

/-- C8: the FCR generator fails with a ValidationError mentioning purpose
exactly when purpose is blank; any non-blank purpose succeeds for arbitrary
change_type and risk_level strings, an unrecognized change_type falling back
to the firewall_rule technical-description, tests and rollback templates,
and an unrecognized risk_level falling back to the low-risk impact statement
and rollback-time entry. -/
theorem C8_fcr_validation_and_fallbacks (purpose changeType ruleCount direction riskLevel
    environment now : String) :
    (generateFcrContent purpose changeType ruleCount direction riskLevel environment now =
        .error (.validation ["purpose is required"]) ↔ pyIsBlank purpose = true) ∧
    (pyIsBlank purpose = false →
      generateFcrContent purpose changeType ruleCount direction riskLevel environment now =
        .ok (renderFcr purpose changeType ruleCount direction riskLevel environment now)) ∧
    "purpose".data <:+: (SkillError.validation ["purpose is required"]).message.data ∧
    (changeType ∉ ["firewall_rule", "nat_change", "f5_ssl", "routing_change",
        "acl_update", "vpn_config"] →
      techDescription changeType purpose direction ruleCount =
          techDescription "firewall_rule" purpose direction ruleCount ∧
      testsFor changeType = testsFor "firewall_rule" ∧
      rollbackFor changeType = rollbackFor "firewall_rule") ∧
    (riskLevel ∉ ["low", "medium", "high"] →
      impactFor riskLevel = impactFor "low" ∧
      rollbackTimeFor riskLevel = rollbackTimeFor "low") := by
  refine ⟨?_, ?_, by decide, ?_, ?_⟩
  · cases hb : pyIsBlank purpose
    · simp [generateFcrContent, fcrValidate, hb]
    · simp [generateFcrContent, fcrValidate, hb]
  · intro hb
    simp [generateFcrContent, fcrValidate, hb]
  · intro h
    simp only [List.mem_cons, not_or] at h
    obtain ⟨h1, h2, h3, h4, h5, h6, -⟩ := h
    have b1 : ("firewall_rule" == changeType) = false :=
      beq_eq_false_iff_ne.mpr (Ne.symm h1)
    have b2 : ("nat_change" == changeType) = false :=
      beq_eq_false_iff_ne.mpr (Ne.symm h2)
    have b3 : ("f5_ssl" == changeType) = false :=
      beq_eq_false_iff_ne.mpr (Ne.symm h3)
    have b4 : ("routing_change" == changeType) = false :=
      beq_eq_false_iff_ne.mpr (Ne.symm h4)
    have b5 : ("acl_update" == changeType) = false :=
      beq_eq_false_iff_ne.mpr (Ne.symm h5)
    have b6 : ("vpn_config" == changeType) = false :=
      beq_eq_false_iff_ne.mpr (Ne.symm h6)
    refine ⟨?_, ?_, ?_⟩
    · simp [techDescription, h1, h2, h3, h4, h5, h6]
    · simp [testsFor, lookupD, List.find?, b1, b2, b3, b4, b5, b6]
    · simp [rollbackFor, lookupD, List.find?, b1, b2, b3, b4, b5, b6]
  · intro h
    simp only [List.mem_cons, not_or] at h
    obtain ⟨h1, h2, h3, -⟩ := h
    have b1 : ("low" == riskLevel) = false := beq_eq_false_iff_ne.mpr (Ne.symm h1)
    have b2 : ("medium" == riskLevel) = false := beq_eq_false_iff_ne.mpr (Ne.symm h2)
    have b3 : ("high" == riskLevel) = false := beq_eq_false_iff_ne.mpr (Ne.symm h3)
    exact ⟨by simp [impactFor, lookupD, List.find?, b1, b2, b3],
           by simp [rollbackTimeFor, lookupD, List.find?, b1, b2, b3]⟩

/-- Witness for C8 at a non-blank purpose with unrecognized change_type and
risk_level. -/
theorem C8_fcr_validation_and_fallbacks_witness :
    pyIsBlank "X" = false ∧
    "weird" ∉ ["firewall_rule", "nat_change", "f5_ssl", "routing_change",
      "acl_update", "vpn_config"] ∧
    generateFcrContent "X" "weird" "single" "inbound" "weird" "prod" "TS" =
      .ok (renderFcr "X" "weird" "single" "inbound" "weird" "prod" "TS") ∧
    testsFor "weird" = testsFor "firewall_rule" :=
  ⟨by decide, by decide,
   (C8_fcr_validation_and_fallbacks "X" "weird" "single" "inbound" "weird" "prod"
      "TS").2.1 (by decide),
   ((C8_fcr_validation_and_fallbacks "X" "weird" "single" "inbound" "weird" "prod"
      "TS").2.2.2.1 (by decide)).2.1⟩

/-- C1 counterexample: dispatching the runbook skill with an input map that
contains neither `domain` nor `symptom_category` does NOT fail with a
ValidationError; it succeeds, because the dispatcher defaults the two
required fields to the valid pair firewall / high_cpu. -/
theorem C1_counterexample :
    (executeSkill "runbook" [] "TS" "TD").isOk = true ∧
    executeSkill "runbook" [] "TS" "TD" ≠
      .error (.validation ["domain is required", "symptom_category is required"]) := by
  constructor
  · rfl
  · intro h
    exact absurd (congrArg Except.isOk h) (by decide)

/-- C1 amended: for input maps without the `domain` and `symptom_category`
keys, the dispatcher supplies the defaults `firewall` and `high_cpu` for the
runbook generator, so the dispatch always succeeds with the firewall
high_cpu runbook; a ValidationError arises only when a caller explicitly
supplies blank values for those fields. -/
theorem C1_amended_runbook_dispatch_defaults (m : InputMap) (now today : String)
    (h1 : lookupV m "domain" = none) (h2 : lookupV m "symptom_category" = none) :
    executeSkill "runbook" m now today =
      (generateRunbook "firewall" "high_cpu" (getStr m "access_mode" "gui_only")
        (getStr m "environment" "prod") now).map (fun out => ⟨"runbook", out⟩) ∧
    (∀ accessMode environment now₂ : String,
      (generateRunbook "firewall" "high_cpu" accessMode environment now₂).isOk = true) ∧
    (∀ now₂ today₂ : String,
      executeSkill "runbook"
          [("domain", .vStr ""), ("symptom_category", .vStr "")] now₂ today₂ =
        .error (.validation ["domain is required", "symptom_category is required"])) := by
  refine ⟨?_, ?_, ?_⟩
  · have gd : getStr m "domain" "firewall" = "firewall" := by simp [getStr, h1]
    have gs : getStr m "symptom_category" "high_cpu" = "high_cpu" := by simp [getStr, h2]
    simp only [executeSkill, gd, gs]
    simp only [show ("runbook" == "incident") = false from rfl,
      show ("runbook" == "runbook") = true from rfl, Bool.false_eq_true, if_false, if_true]
    cases generateRunbook "firewall" "high_cpu" (getStr m "access_mode" "gui_only")
        (getStr m "environment" "prod") now <;> rfl
  · intro accessMode environment now₂
    rfl
  · intro now₂ today₂
    rfl

/-- Witness for C1 amended at the empty input map. -/
theorem C1_amended_runbook_dispatch_defaults_witness :
    lookupV [] "domain" = none ∧ lookupV [] "symptom_category" = none ∧
    executeSkill "runbook" [] "TS" "TD" =
      (generateRunbook "firewall" "high_cpu" "gui_only" "prod" "TS").map
        (fun out => ⟨"runbook", out⟩) :=
  ⟨rfl, rfl, (C1_amended_runbook_dispatch_defaults [] "TS" "TD" rfl rfl).1⟩

/-- C3 counterexample: a task with unrecognized status is NOT ordered
equivalently to status todo (with status todo the title tie-break would put
A first; with the unrecognized status A sorts last, like done), and a task
with unrecognized priority is NOT ordered equivalently to priority medium. -/
theorem C3_counterexample :
    (sortedTaskItems
        [{ title? := some "A", status? := some "weird" },
         { title? := some "B" }]).map (fun t => t.title) = ["B", "A"] ∧
    (sortedTaskItems
        [{ title? := some "A" }, { title? := some "B" }]).map (fun t => t.title) =
      ["A", "B"] ∧
    (sortedTaskItems
        [{ title? := some "A", priority? := some "strange" },
         { title? := some "B" }]).map (fun t => t.title) = ["B", "A"] ∧
    TaskItem.sortKey { title := "A", status := "weird" } ≠
      TaskItem.sortKey { title := "A", status := "todo" } ∧
    TaskItem.sortKey { title := "A", priority := "strange" } ≠
      TaskItem.sortKey { title := "A", priority := "medium" } := by
  refine ⟨?_, ?_, ?_, by decide, by decide⟩ <;>
    simp [sortedTaskItems, taskItems, toTaskItem, List.mergeSort, List.splitInTwo,
      List.splitAt, List.splitAt.go, List.merge, taskLE, keyLE, TaskItem.sortKey,
      lookupD, List.find?, pyLower, PRIORITY_WEIGHT, STATUS_WEIGHT] <;> decide

/-- C3 amended: in the prioritizer ordering, a task whose status is not one
of todo, in_progress, done gets weight 1 and is therefore ordered
equivalently to status done, and a task whose priority is not one of low,
medium, high gets weight 1 and is ordered equivalently to priority low
(the sort keys coincide). -/
theorem C3_amended_unknown_status_done_priority_low (title status priority : String) :
    (pyLower status ∉ ["in_progress", "todo", "done"] →
      TaskItem.sortKey { title := title, status := status, priority := priority } =
        TaskItem.sortKey { title := title, status := "done", priority := priority }) ∧
    (pyLower priority ∉ ["high", "medium", "low"] →
      TaskItem.sortKey { title := title, status := status, priority := priority } =
        TaskItem.sortKey { title := title, status := status, priority := "low" }) := by
  constructor
  · intro h
    simp only [List.mem_cons, not_or] at h
    obtain ⟨h1, h2, h3, -⟩ := h
    have b1 : ("in_progress" == pyLower status) = false :=
      beq_eq_false_iff_ne.mpr (Ne.symm h1)
    have b2 : ("todo" == pyLower status) = false := beq_eq_false_iff_ne.mpr (Ne.symm h2)
    have b3 : ("done" == pyLower status) = false := beq_eq_false_iff_ne.mpr (Ne.symm h3)
    have e : pyLower "done" = "done" := by decide
    simp [TaskItem.sortKey, lookupD, List.find?, b1, b2, b3, STATUS_WEIGHT, e]
  · intro h
    simp only [List.mem_cons, not_or] at h
    obtain ⟨h1, h2, h3, -⟩ := h
    have b1 : ("high" == pyLower priority) = false := beq_eq_false_iff_ne.mpr (Ne.symm h1)
    have b2 : ("medium" == pyLower priority) = false :=
      beq_eq_false_iff_ne.mpr (Ne.symm h2)
    have b3 : ("low" == pyLower priority) = false := beq_eq_false_iff_ne.mpr (Ne.symm h3)
    have e : pyLower "low" = "low" := by decide
    simp [TaskItem.sortKey, lookupD, List.find?, b1, b2, b3, PRIORITY_WEIGHT, e]

/-- Witness for C3 amended at unrecognized status and priority strings. -/
theorem C3_amended_unknown_status_done_priority_low_witness :
    TaskItem.sortKey { title := "A", status := "weird", priority := "medium" } =
      TaskItem.sortKey { title := "A", status := "done", priority := "medium" } ∧
    TaskItem.sortKey { title := "A", status := "todo", priority := "strange" } =
      TaskItem.sortKey { title := "A", status := "todo", priority := "low" } :=
  ⟨(C3_amended_unknown_status_done_priority_low "A" "weird" "medium").1 (by decide),
   (C3_amended_unknown_status_done_priority_low "A" "todo" "strange").2 (by decide)⟩

/-- Partition of the task count: the three summary buckets plus the tasks
with unrecognized status account for every rendered task. -/
theorem counts_plus_unknown (items : List TaskItem) :
    inProgressCount items + todoCount items + doneCount items +
      items.countP (fun t => !(pyLower t.status == "in_progress" ||
        pyLower t.status == "todo" || pyLower t.status == "done")) = items.length := by
  induction items with
  | nil => rfl
  | cons t ts ih =>
    simp only [inProgressCount, todoCount, doneCount, List.countP_cons,
      List.length_cons] at ih ⊢
    by_cases c1 : pyLower t.status = "in_progress" <;>
      by_cases c2 : pyLower t.status = "todo" <;>
      by_cases c3 : pyLower t.status = "done" <;>
      simp_all <;> omega

/-- C10: only tasks whose lowercased status is exactly in_progress, todo or
done are counted in the trailing summary; a task with any other status is
still rendered (with the `[TODO]` icon and a `completed` reasoning phrase)
but lands in no bucket, so the three summary counts can sum to less than
the total task count. -/
theorem C10_summary_counts_only_known_statuses (ts : List TaskDict) :
    (inProgressCount (sortedTaskItems ts) + todoCount (sortedTaskItems ts) +
        doneCount (sortedTaskItems ts) +
        (sortedTaskItems ts).countP (fun t => !(pyLower t.status == "in_progress" ||
          pyLower t.status == "todo" || pyLower t.status == "done")) =
      (sortedTaskItems ts).length) ∧
    (∀ t ∈ sortedTaskItems ts,
      pyLower t.status ∉ ["in_progress", "todo", "done"] →
        statusIcon t = "[TODO]" ∧
        (∃ pp ∈ ["high priority", "medium priority", "low priority"],
          getReasoning t = pp ++ ", completed") ∧
        (pyLower t.status == "in_progress") = false ∧
        (pyLower t.status == "todo") = false ∧
        (pyLower t.status == "done") = false) ∧
    (inProgressCount (sortedTaskItems [{ title? := some "A", status? := some "weird" }]) +
        todoCount (sortedTaskItems [{ title? := some "A", status? := some "weird" }]) +
        doneCount (sortedTaskItems [{ title? := some "A", status? := some "weird" }]) = 0 ∧
      (sortedTaskItems [{ title? := some "A", status? := some "weird" }]).length = 1 ∧
      numberedEntries (sortedTaskItems [{ title? := some "A", status? := some "weird" }]) =
        ["1. (-) **A** [TODO]", "   _Reason: medium priority, completed_", ""]) := by
  refine ⟨counts_plus_unknown _, ?_, ?_⟩
  · intro t ht h
    simp only [List.mem_cons, not_or] at h
    obtain ⟨h1, h2, h3, -⟩ := h
    have b1 : (pyLower t.status == "in_progress") = false := beq_eq_false_iff_ne.mpr h1
    have b2 : (pyLower t.status == "todo") = false := beq_eq_false_iff_ne.mpr h2
    have b3 : (pyLower t.status == "done") = false := beq_eq_false_iff_ne.mpr h3
    have bi1 : ("in_progress" == pyLower t.status) = false :=
      beq_eq_false_iff_ne.mpr (Ne.symm h1)
    have bi2 : ("todo" == pyLower t.status) = false := beq_eq_false_iff_ne.mpr (Ne.symm h2)
    have bi3 : ("done" == pyLower t.status) = false := beq_eq_false_iff_ne.mpr (Ne.symm h3)
    refine ⟨by simp [statusIcon, lookupD, List.find?, bi1, bi2, bi3], ?_, b1, b2, b3⟩
    simp only [getReasoning, b1, b2, b3]
    by_cases p1 : pyLower t.priority == "high"
    · exact ⟨"high priority", by simp, by simp [p1]⟩
    · by_cases p2 : pyLower t.priority == "medium"
      · exact ⟨"medium priority", by simp, by simp [p1, p2]⟩
      · exact ⟨"low priority", by simp, by simp [p1, p2]⟩
  · have e : sortedTaskItems [{ title? := some "A", status? := some "weird" }] =
        [{ title := "A", status := "weird", priority := "medium" }] := by
      simp [sortedTaskItems, taskItems, toTaskItem, List.mergeSort]
    rw [e]
    refine ⟨by decide, by decide, by decide⟩

/-- Witness for C10 at a task list with one unrecognized status. -/
theorem C10_summary_counts_only_known_statuses_witness :
    pyLower (TaskItem.status { title := "A", status := "weird", priority := "medium" }) ∉
      ["in_progress", "todo", "done"] ∧
    statusIcon { title := "A", status := "weird", priority := "medium" } = "[TODO]" := by
  have hmem : ({ title := "A", status := "weird", priority := "medium" } : TaskItem) ∈
      sortedTaskItems [{ title? := some "A", status? := some "weird" }] := by
    have e : sortedTaskItems [{ title? := some "A", status? := some "weird" }] =
        [{ title := "A", status := "weird", priority := "medium" }] := by
      simp [sortedTaskItems, taskItems, toTaskItem, List.mergeSort]
    rw [e]
    exact List.mem_singleton.mpr rfl
  exact ⟨by decide,
    (((C10_summary_counts_only_known_statuses
        [{ title? := some "A", status? := some "weird" }]).2.1 _ hmem) (by decide)).1⟩

/-- C6: in the daily summary a task with status todo and blocked true lands
in the Blocked group and is excluded from the To Do group (whose length is
the rendered To Do count) and from the Next Up group, while the blocked
flag is evaluated independently of status: done or in_progress tasks with
blocked true appear both in their status group and in the Blocked group. -/
theorem C6_blocked_independent_of_status (ts : List TaskDict) (t : SummaryTask)
    (ht : t ∈ summaryTasks ts) :
    (pyLower t.status = "todo" → t.blocked = true →
      t ∈ blockedGroup (summaryTasks ts) ∧
      t ∉ todoGroup (summaryTasks ts) ∧
      t ∉ nextUpGroup (summaryTasks ts)) ∧
    (pyLower t.status = "done" → t.blocked = true →
      t ∈ completedGroup (summaryTasks ts) ∧ t ∈ blockedGroup (summaryTasks ts)) ∧
    (pyLower t.status = "in_progress" → t.blocked = true →
      t ∈ inProgressGroup (summaryTasks ts) ∧ t ∈ blockedGroup (summaryTasks ts)) := by
  refine ⟨?_, ?_, ?_⟩
  · intro hs hb
    have hnotodo : t ∉ todoGroup (summaryTasks ts) := by
      intro hmem
      have hpred := (List.mem_filter.mp hmem).2
      simp [hb] at hpred
    refine ⟨List.mem_filter.mpr ⟨ht, by simp [hb]⟩, hnotodo, ?_⟩
    intro hmem
    refine hnotodo ?_
    simp only [nextUpGroup] at hmem
    split at hmem
    · exact List.mem_of_mem_take hmem
    · exact List.mem_of_mem_filter (List.mem_of_mem_take hmem)
  · intro hs hb
    exact ⟨List.mem_filter.mpr ⟨ht, by simp [hs]⟩,
           List.mem_filter.mpr ⟨ht, by simp [hb]⟩⟩
  · intro hs hb
    exact ⟨List.mem_filter.mpr ⟨ht, by simp [hs]⟩,
           List.mem_filter.mpr ⟨ht, by simp [hb]⟩⟩

/-- Witness for C6 at a blocked todo task. -/
theorem C6_blocked_independent_of_status_witness :
    ({ title := "T", status := "todo", blocked := true } : SummaryTask) ∈
      summaryTasks [{ title? := some "T", status? := some "todo", blocked? := some true }] ∧
    ({ title := "T", status := "todo", blocked := true } : SummaryTask) ∈
      blockedGroup (summaryTasks
        [{ title? := some "T", status? := some "todo", blocked? := some true }]) ∧
    ({ title := "T", status := "todo", blocked := true } : SummaryTask) ∉
      todoGroup (summaryTasks
        [{ title? := some "T", status? := some "todo", blocked? := some true }]) := by
  have ht : ({ title := "T", status := "todo", blocked := true } : SummaryTask) ∈
      summaryTasks [{ title? := some "T", status? := some "todo", blocked? := some true }] :=
    by decide
  have h := (C6_blocked_independent_of_status
      [{ title? := some "T", status? := some "todo", blocked? := some true }]
      { title := "T", status := "todo", blocked := true } ht).1 (by decide) rfl
  exact ⟨ht, h.1, h.2.1⟩

/-- C5: for every non-empty task list the prioritizer renders the tasks in
the order of a stable sort on the composite key (priority weight
descending, then status weight descending, then lowercased title
ascending): the rendered list is a permutation of the input items, sorted
under the key comparison, stable (key-ordered pairs of the input keep
their relative order), and every high-priority task precedes every
low-priority task; the rendered output is the header, the numbered entries
of the sorted list, and the summary, so the order is deterministic for any
input including duplicate titles; on the spec example B (high) is rendered
before A (low). -/
theorem C5_prioritizer_stable_sort_order (ts : List TaskDict) (hne : ts ≠ []) :
    List.Perm (sortedTaskItems ts) (taskItems ts) ∧
    (sortedTaskItems ts).Pairwise (fun a b => taskLE a b = true) ∧
    (∀ a b : TaskItem, taskLE a b = true → List.Sublist [a, b] (taskItems ts) →
      List.Sublist [a, b] (sortedTaskItems ts)) ∧
    (∀ i j : Fin (sortedTaskItems ts).length,
      pyLower ((sortedTaskItems ts).get i).priority = "high" →
      pyLower ((sortedTaskItems ts).get j).priority = "low" →
      (i : Nat) < (j : Nat)) ∧
    (∀ now : String, prioritizeTasks now ts =
      joinNL (priorityHeader now (sortedTaskItems ts) ++
        numberedEntries (sortedTaskItems ts) ++ prioritySummary (sortedTaskItems ts))) ∧
    numberedEntries (sortedTaskItems
        [{ title? := some "A", priority? := some "low" },
         { title? := some "B", priority? := some "high" }]) =
      ["1. (!) **B** [TODO]", "   _Reason: high priority, ready to start_", "",
       "2. (.) **A** [TODO]", "   _Reason: low priority, ready to start_", ""] := by
  have hpw : (sortedTaskItems ts).Pairwise (fun a b => taskLE a b = true) :=
    List.sorted_mergeSort taskLE_trans taskLE_total (taskItems ts)
  refine ⟨List.mergeSort_perm (taskItems ts) taskLE, hpw, ?_, ?_, ?_, ?_⟩
  · intro a b hab hsub
    exact List.pair_sublist_mergeSort taskLE_trans taskLE_total hab hsub
  · intro i j hi hj
    rcases Nat.lt_trichotomy (i : Nat) (j : Nat) with hlt | heq | hgt
    · exact hlt
    · exfalso
      have : i = j := Fin.ext heq
      rw [this, hj] at hi
      exact absurd hi (by decide)
    · exfalso
      have hle : taskLE ((sortedTaskItems ts).get j) ((sortedTaskItems ts).get i) = true :=
        List.pairwise_iff_get.mp hpw j i hgt
      have k1 : (TaskItem.sortKey ((sortedTaskItems ts).get j)).1 = -1 := by
        rw [show (TaskItem.sortKey ((sortedTaskItems ts).get j)).1 =
            -(lookupD PRIORITY_WEIGHT (pyLower ((sortedTaskItems ts).get j).priority) 1)
          from rfl, hj]
        decide
      have k2 : (TaskItem.sortKey ((sortedTaskItems ts).get i)).1 = -3 := by
        rw [show (TaskItem.sortKey ((sortedTaskItems ts).get i)).1 =
            -(lookupD PRIORITY_WEIGHT (pyLower ((sortedTaskItems ts).get i).priority) 1)
          from rfl, hi]
        decide
      simp only [taskLE, keyLE, Bool.or_eq_true, Bool.and_eq_true, decide_eq_true_eq,
        beq_iff_eq] at hle
      rw [k1, k2] at hle
      rcases hle with hle | ⟨hle, -⟩ <;> omega
  · intro now
    simp [prioritizeTasks, hne]
  · have e : sortedTaskItems
        [{ title? := some "A", priority? := some "low" },
         { title? := some "B", priority? := some "high" }] =
        [{ title := "B", status := "todo", priority := "high" },
         { title := "A", status := "todo", priority := "low" }] := by
      simp [sortedTaskItems, taskItems, toTaskItem, List.mergeSort, List.splitInTwo,
        List.splitAt, List.splitAt.go, List.merge, taskLE, keyLE, TaskItem.sortKey,
        lookupD, List.find?, pyLower, PRIORITY_WEIGHT, STATUS_WEIGHT]
    rw [e]
    decide

/-- Witness for C5 at the spec example list. -/
theorem C5_prioritizer_stable_sort_order_witness :
    ([{ title? := some "A", priority? := some "low" },
      { title? := some "B", priority? := some "high" }] : List TaskDict) ≠ [] ∧
    List.Perm
      (sortedTaskItems
        [{ title? := some "A", priority? := some "low" },
         { title? := some "B", priority? := some "high" }])
      (taskItems
        [{ title? := some "A", priority? := some "low" },
         { title? := some "B", priority? := some "high" }]) :=
  ⟨by decide,
   (C5_prioritizer_stable_sort_order
      [{ title? := some "A", priority? := some "low" },
       { title? := some "B", priority? := some "high" }] (by decide)).1⟩

/-- C2: for every non-blank domain string that is not a playbook key (with a
non-blank symptom so that structural validation passes), the runbook
generator fails with the domain NotFoundError, a constructor distinct from
the validation error; its message names the offending domain and every
valid domain, and the domain lookup failure preempts the symptom lookup:
the message mentions a symptom key only if the caller-supplied domain
string itself contains it. -/
theorem C2_runbook_unknown_domain (domain symptomCategory accessMode environment
    now : String) (hd : pyIsBlank domain = false) (hs : pyIsBlank symptomCategory = false)
    (hnot : domain ∉ ["firewall", "f5", "circuit"]) :
    generateRunbook domain symptomCategory accessMode environment now =
      .error (.domainNotFound domain ["firewall", "f5", "circuit"]) ∧
    (∀ fields, SkillError.domainNotFound domain ["firewall", "f5", "circuit"] ≠
      SkillError.validation fields) ∧
    domain.data <:+:
      (SkillError.domainNotFound domain ["firewall", "f5", "circuit"]).message.data ∧
    (∀ d ∈ ["firewall", "f5", "circuit"], d.data <:+:
      (SkillError.domainNotFound domain ["firewall", "f5", "circuit"]).message.data) ∧
    (∀ k ∈ allSymptomKeys, ¬ (k.data <:+: domain.data) →
      ¬ (k.data <:+:
        (SkillError.domainNotFound domain ["firewall", "f5", "circuit"]).message.data)) := by
  simp only [List.mem_cons, not_or] at hnot
  obtain ⟨h1, h2, h3, -⟩ := hnot
  have b1 : ("firewall" == domain) = false := beq_eq_false_iff_ne.mpr (Ne.symm h1)
  have b2 : ("f5" == domain) = false := beq_eq_false_iff_ne.mpr (Ne.symm h2)
  have b3 : ("circuit" == domain) = false := beq_eq_false_iff_ne.mpr (Ne.symm h3)
  have hshape : (SkillError.domainNotFound domain
        ["firewall", "f5", "circuit"]).message.data =
      "No playbook found for domain:".data ++ ' ' :: (domain.data ++ '.' ::
        (" Available: " ++ pyStrListRepr ["firewall", "f5", "circuit"]).data) := by
    have e1 : ("No playbook found for domain: ").data =
        "No playbook found for domain:".data ++ [' '] := by decide
    have e3 : (". Available: ").data = '.' :: (" Available: ").data := by decide
    show ("No playbook found for domain: " ++ domain ++ ". Available: " ++
        pyStrListRepr ["firewall", "f5", "circuit"]).data = _
    simp only [String.data_append, e1, e3, List.append_assoc, List.cons_append,
      List.singleton_append, List.nil_append, List.append_nil]
  refine ⟨?_, ?_, ?_, ?_, ?_⟩
  · simp [generateRunbook, runbookValidate, hd, hs, lookupD, List.find?, PLAYBOOKS,
      b1, b2, b3]
  · intro fields h
    exact SkillError.noConfusion h
  · rw [hshape]
    exact ⟨"No playbook found for domain:".data ++ [' '],
      '.' :: (" Available: " ++ pyStrListRepr ["firewall", "f5", "circuit"]).data,
      by simp⟩
  · have hsuffix : (" Available: " ++ pyStrListRepr ["firewall", "f5", "circuit"]).data
        <:+: (SkillError.domainNotFound domain
          ["firewall", "f5", "circuit"]).message.data := by
      rw [hshape]
      exact ⟨"No playbook found for domain:".data ++ ' ' :: (domain.data ++ ['.']), [],
        by simp [List.append_assoc]⟩
    intro d hd2
    fin_cases hd2 <;> exact List.IsInfix.trans (by decide) hsuffix
  · intro k hk
    fin_cases hk <;>
      exact fun hnd => by
        rw [hshape]
        exact not_infix_append_cons (by decide) (by decide)
          (not_infix_append_cons (by decide) hnd (by decide))

/-- Witness for C2 at a concrete unknown domain. -/
theorem C2_runbook_unknown_domain_witness :
    pyIsBlank "bogus" = false ∧
    generateRunbook "bogus" "high_cpu" "gui_only" "prod" "TS" =
      .error (.domainNotFound "bogus" ["firewall", "f5", "circuit"]) :=
  ⟨by decide,
   (C2_runbook_unknown_domain "bogus" "high_cpu" "gui_only" "prod" "TS"
      (by decide) (by decide) (by decide)).1⟩

/-- The severity-derived next-update interval never contains an excluded
string (it is one of five fixed clean values). -/
theorem getNextUpdateTime_clean (severity pat : String) (hp : pat ∈ badPats) :
    ¬ (pat.data <:+: (getNextUpdateTime severity).data) := by
  unfold getNextUpdateTime
  split
  · fin_cases hp <;> decide
  · split
    · fin_cases hp <;> decide
    · split
      · fin_cases hp <;> decide
      · split
        · fin_cases hp <;> decide
        · fin_cases hp <;> decide

/-- Every next-steps entry is one of the fixed table strings, none of which
contains an excluded string. -/
theorem getNextSteps_clean (currentStatus pat s : String) (hp : pat ∈ badPats)
    (hs : s ∈ getNextSteps currentStatus) : ¬ (pat.data <:+: s.data) := by
  unfold getNextSteps at hs
  split at hs
  · fin_cases hs <;> fin_cases hp <;> decide
  · split at hs
    · fin_cases hs <;> fin_cases hp <;> decide
    · split at hs
      · fin_cases hs <;> fin_cases hp <;> decide
      · split at hs
        · fin_cases hs <;> fin_cases hp <;> decide
        · fin_cases hs <;> fin_cases hp <;> decide

/-- C7: for non-blank incident_title and impact_summary and audience client,
where no caller-supplied field itself contains an excluded string (for the
title-cased status field: contains none case-insensitively), the client
output never contains the literal word severity nor a raw P1 to P4 code,
renders exactly the first two next-steps as bullets, and contains the
closing courtesy line. -/
theorem C7_client_template_excludes_severity (incidentTitle impactSummary severity
    currentStatus : String) (nextUpdateTime : Option String)
    (checksDone evidence : List String) (now : String)
    (h1 : pyIsBlank incidentTitle = false) (h2 : pyIsBlank impactSummary = false)
    (hT : ∀ pat ∈ badPats, ¬ (pat.data <:+: incidentTitle.data))
    (hI : ∀ pat ∈ badPats, ¬ (pat.data <:+: impactSummary.data))
    (hN : ∀ pat ∈ badPats, ¬ (pat.data <:+: now.data))
    (hU : ∀ s : String, nextUpdateTime = some s →
      ∀ pat ∈ badPats, ¬ (pat.data <:+: s.data))
    (hS : ∀ pat ∈ badPats,
      ¬ (pat.data.map Char.toLower <:+: (pyLower currentStatus).data)) :
    generateIncidentUpdate incidentTitle impactSummary "client" severity currentStatus
        nextUpdateTime checksDone evidence now =
      .ok (clientOutput incidentTitle impactSummary severity currentStatus
            nextUpdateTime now) ∧
    (∀ pat ∈ badPats, ¬ (pat.data <:+:
      (clientOutput incidentTitle impactSummary severity currentStatus
        nextUpdateTime now).data)) ∧
    clientLines incidentTitle impactSummary currentStatus now
        (resolvedNut nextUpdateTime severity) (getNextSteps currentStatus) =
      clientHeadLines incidentTitle impactSummary currentStatus now ++
        ((getNextSteps currentStatus).take 2).map (fun s => "- " ++ s) ++
        clientTailLines (resolvedNut nextUpdateTime severity) ∧
    ((getNextSteps currentStatus).take 2).length ≤ 2 ∧
    "Thank you for your patience.".data <:+:
      (clientOutput incidentTitle impactSummary severity currentStatus
        nextUpdateTime now).data := by
  have hnut : ∀ pat ∈ badPats,
      ¬ (pat.data <:+: (resolvedNut nextUpdateTime severity).data) := by
    intro pat hp
    cases nextUpdateTime with
    | none => exact getNextUpdateTime_clean severity pat hp
    | some s =>
      show ¬ (pat.data <:+: (if s == "" then getNextUpdateTime severity else s).data)
      split
      · exact getNextUpdateTime_clean severity pat hp
      · exact hU s rfl pat hp
  refine ⟨?_, ?_, rfl, by simpa using List.length_take_le 2 (getNextSteps currentStatus),
    mem_infix_joinNL (by simp [clientLines, clientTailLines])⟩
  · simp [generateIncidentUpdate, incidentValidate, h1, h2]
  · intro pat hpat
    fin_cases hpat
    all_goals
      refine not_infix_joinNL (by decide) (by decide) _ ?_
      intro l hl
      rcases List.mem_append.mp hl with hl2 | hl2
      case inl =>
        rcases List.mem_append.mp hl2 with hl3 | hl3
        case inl =>
          fin_cases hl3
          · have e : ("# Service Update: " ++ incidentTitle).data =
                "# Service Update:".data ++ ' ' :: incidentTitle.data := by
              have eA : ("# Service Update: ").data =
                  "# Service Update:".data ++ [' '] := by decide
              simp [String.data_append, eA, List.append_assoc]
            rw [e]
            exact not_infix_append_cons (by decide) (by decide) (hT _ (by decide))
          · decide
          · have e : ("**Status:** " ++ pyTitle currentStatus).data =
                "**Status:**".data ++ ' ' :: (pyTitle currentStatus).data := by
              have eA : ("**Status:** ").data = "**Status:**".data ++ [' '] := by decide
              simp [String.data_append, eA, List.append_assoc]
            rw [e]
            refine not_infix_append_cons (by decide) (by decide) ?_
            intro hbad
            exact hS _ (by decide) (infix_pyTitle_lower hbad)
          · have e : ("**Updated:** " ++ now).data =
                "**Updated:**".data ++ ' ' :: now.data := by
              have eA : ("**Updated:** ").data = "**Updated:**".data ++ [' '] := by
                decide
              simp [String.data_append, eA, List.append_assoc]
            rw [e]
            exact not_infix_append_cons (by decide) (by decide) (hN _ (by decide))
          · decide
          · decide
          · exact hI _ (by decide)
          · decide
          · decide
        case inr =>
          rcases List.mem_map.mp hl3 with ⟨s, hs2, rfl⟩
          have hsstep : s ∈ getNextSteps currentStatus := List.mem_of_mem_take hs2
          have e : ("- " ++ s).data = ['-'] ++ ' ' :: s.data := by
            simp [String.data_append]
          rw [e]
          exact not_infix_append_cons (by decide) (by decide)
            (getNextSteps_clean currentStatus _ s (by decide) hsstep)
      case inr =>
        fin_cases hl2
        · decide
        · have e : ("We will provide another update in " ++
              resolvedNut nextUpdateTime severity ++ ".").data =
              "We will provide another update in".data ++ ' ' ::
                ((resolvedNut nextUpdateTime severity).data ++ '.' :: []) := by
            have eA : ("We will provide another update in ").data =
                "We will provide another update in".data ++ [' '] := by decide
            simp [String.data_append, eA, List.append_assoc]
          rw [e]
          exact not_infix_append_cons (by decide) (by decide)
            (not_infix_append_cons (by decide) (hnut _ (by decide)) (by decide))
        · decide
        · decide

/-- Witness for C7 at concrete clean client inputs. -/
theorem C7_client_template_excludes_severity_witness :
    pyIsBlank "DB outage" = false ∧
    ¬ ("severity".data <:+:
      (clientOutput "DB outage" "Customers impacted" "P2" "investigating"
        none "2025-01-01 00:00 UTC").data) ∧
    "Thank you for your patience.".data <:+:
      (clientOutput "DB outage" "Customers impacted" "P2" "investigating"
        none "2025-01-01 00:00 UTC").data := by
  have h := C7_client_template_excludes_severity "DB outage" "Customers impacted" "P2"
    "investigating" none [] [] "2025-01-01 00:00 UTC" (by decide) (by decide)
    (by intro pat hp; fin_cases hp <;> decide)
    (by intro pat hp; fin_cases hp <;> decide)
    (by intro pat hp; fin_cases hp <;> decide)
    (by intro s hs; exact absurd hs (by simp))
    (by intro pat hp; fin_cases hp <;> decide)
  exact ⟨by decide, h.2.1 "severity" (by decide), h.2.2.2.2⟩

end TaskAPI
